import Mathlib

/-!
Shallow embedding of `src/platform/unix.rs` of the winit repository:
Unix-specific extension traits (scancode translation, backend-variant
native-handle accessors, window-builder option setters, event-loop
constructors, Wayland decoration theme).
-/

namespace Winit

/-- Modelled from the spec: `crate::keyboard::NativeKeyCode` is not under
`src/`; the source file only uses its `XKB(u32)` constructor, which carries
a raw 32-bit scancode. We represent the `u32` payload as a `Nat`. -/
inductive NativeKeyCode where
  | XKB (code : Nat)
  deriving DecidableEq

/-- Modelled from the spec: `crate::keyboard::KeyCode` is not under `src/`;
the spec describes it as "an enumeration covering common physical keys plus
a fallback carrying an opaque native scancode". We list exactly the
constructors referenced by `src/platform/unix.rs`. -/
inductive KeyCode where
  | Escape
  | Digit1 | Digit2 | Digit3 | Digit4 | Digit5
  | Digit6 | Digit7 | Digit8 | Digit9 | Digit0
  | Minus | Equal | Backspace | Tab
  | KeyQ | KeyW | KeyE | KeyR | KeyT | KeyY | KeyU | KeyI | KeyO | KeyP
  | BracketLeft | BracketRight | Enter | ControlLeft
  | KeyA | KeyS | KeyD | KeyF | KeyG | KeyH | KeyJ | KeyK | KeyL
  | Semicolon | Backquote | ShiftLeft | Backslash
  | KeyZ | KeyX | KeyC | KeyV | KeyB | KeyN | KeyM
  | Comma | Period | Slash | ShiftRight | AltLeft | Space | CapsLock
  | F1 | F2 | F3 | F4 | F5 | F6 | F7 | F8 | F9 | F10
  | ScrollLock | F11 | F12 | ControlRight | PrintScreen | AltRight
  | Home | ArrowUp | PageUp | ArrowLeft | ArrowRight | End | ArrowDown
  | PageDown | Insert | Delete
  | AudioVolumeMute | AudioVolumeDown | AudioVolumeUp | Pause
  | SuperLeft | ContextMenu | Fn | BrowserBack | BrowserForward
  | Unidentified (code : NativeKeyCode)

/-- `KeyCodeExtScancode::to_scancode` for `KeyCode`
(`src/platform/unix.rs` lines 536-540): the match has a single wildcard
arm returning `None`. -/
def to_scancode (_self : KeyCode) : Option Nat :=
  none

/-- `KeyCodeExtScancode::from_scancode` (`src/platform/unix.rs` lines
542-638). The Rust `match` on the `u32` scancode tests the literal arms in
order and falls through to the wildcard fallback; we embed it as the
corresponding chain of equality tests, one per arm, in source order. -/
def from_scancode (scancode : Nat) : KeyCode :=
  if scancode = 1 then KeyCode.Escape
  else if scancode = 2 then KeyCode.Digit1
  else if scancode = 3 then KeyCode.Digit2
  else if scancode = 4 then KeyCode.Digit3
  else if scancode = 5 then KeyCode.Digit4
  else if scancode = 6 then KeyCode.Digit5
  else if scancode = 7 then KeyCode.Digit6
  else if scancode = 8 then KeyCode.Digit7
  else if scancode = 9 then KeyCode.Digit8
  else if scancode = 10 then KeyCode.Digit9
  else if scancode = 11 then KeyCode.Digit0
  else if scancode = 12 then KeyCode.Minus
  else if scancode = 13 then KeyCode.Equal
  else if scancode = 14 then KeyCode.Backspace
  else if scancode = 15 then KeyCode.Tab
  else if scancode = 16 then KeyCode.KeyQ
  else if scancode = 17 then KeyCode.KeyW
  else if scancode = 18 then KeyCode.KeyE
  else if scancode = 19 then KeyCode.KeyR
  else if scancode = 20 then KeyCode.KeyT
  else if scancode = 21 then KeyCode.KeyY
  else if scancode = 22 then KeyCode.KeyU
  else if scancode = 23 then KeyCode.KeyI
  else if scancode = 24 then KeyCode.KeyO
  else if scancode = 25 then KeyCode.KeyP
  else if scancode = 26 then KeyCode.BracketLeft
  else if scancode = 27 then KeyCode.BracketRight
  else if scancode = 28 then KeyCode.Enter
  else if scancode = 29 then KeyCode.ControlLeft
  else if scancode = 30 then KeyCode.KeyA
  else if scancode = 31 then KeyCode.KeyS
  else if scancode = 32 then KeyCode.KeyD
  else if scancode = 33 then KeyCode.KeyF
  else if scancode = 34 then KeyCode.KeyG
  else if scancode = 35 then KeyCode.KeyH
  else if scancode = 36 then KeyCode.KeyJ
  else if scancode = 37 then KeyCode.KeyK
  else if scancode = 38 then KeyCode.KeyL
  else if scancode = 39 then KeyCode.Semicolon
  else if scancode = 41 then KeyCode.Backquote
  else if scancode = 42 then KeyCode.ShiftLeft
  else if scancode = 43 then KeyCode.Backslash
  else if scancode = 44 then KeyCode.KeyZ
  else if scancode = 45 then KeyCode.KeyX
  else if scancode = 46 then KeyCode.KeyC
  else if scancode = 47 then KeyCode.KeyV
  else if scancode = 48 then KeyCode.KeyB
  else if scancode = 49 then KeyCode.KeyN
  else if scancode = 50 then KeyCode.KeyM
  else if scancode = 51 then KeyCode.Comma
  else if scancode = 52 then KeyCode.Period
  else if scancode = 53 then KeyCode.Slash
  else if scancode = 54 then KeyCode.ShiftRight
  else if scancode = 56 then KeyCode.AltLeft
  else if scancode = 57 then KeyCode.Space
  else if scancode = 58 then KeyCode.CapsLock
  else if scancode = 59 then KeyCode.F1
  else if scancode = 60 then KeyCode.F2
  else if scancode = 61 then KeyCode.F3
  else if scancode = 62 then KeyCode.F4
  else if scancode = 63 then KeyCode.F5
  else if scancode = 64 then KeyCode.F6
  else if scancode = 65 then KeyCode.F7
  else if scancode = 66 then KeyCode.F8
  else if scancode = 67 then KeyCode.F9
  else if scancode = 68 then KeyCode.F10
  else if scancode = 70 then KeyCode.ScrollLock
  else if scancode = 87 then KeyCode.F11
  else if scancode = 88 then KeyCode.F12
  else if scancode = 97 then KeyCode.ControlRight
  else if scancode = 99 then KeyCode.PrintScreen
  else if scancode = 100 then KeyCode.AltRight
  else if scancode = 102 then KeyCode.Home
  else if scancode = 103 then KeyCode.ArrowUp
  else if scancode = 104 then KeyCode.PageUp
  else if scancode = 105 then KeyCode.ArrowLeft
  else if scancode = 106 then KeyCode.ArrowRight
  else if scancode = 107 then KeyCode.End
  else if scancode = 108 then KeyCode.ArrowDown
  else if scancode = 109 then KeyCode.PageDown
  else if scancode = 110 then KeyCode.Insert
  else if scancode = 111 then KeyCode.Delete
  else if scancode = 113 then KeyCode.AudioVolumeMute
  else if scancode = 114 then KeyCode.AudioVolumeDown
  else if scancode = 115 then KeyCode.AudioVolumeUp
  else if scancode = 119 then KeyCode.Pause
  else if scancode = 125 then KeyCode.SuperLeft
  else if scancode = 127 then KeyCode.ContextMenu
  else if scancode = 143 then KeyCode.Fn
  else if scancode = 158 then KeyCode.BrowserBack
  else if scancode = 159 then KeyCode.BrowserForward
  else KeyCode.Unidentified (NativeKeyCode.XKB scancode)

/-- The forward table of `from_scancode` as an association list: one entry
per literal arm of the source `match`, in source order. -/
def scancodeTable : List (Nat × KeyCode) :=
  [(1, KeyCode.Escape), (2, KeyCode.Digit1), (3, KeyCode.Digit2),
   (4, KeyCode.Digit3), (5, KeyCode.Digit4), (6, KeyCode.Digit5),
   (7, KeyCode.Digit6), (8, KeyCode.Digit7), (9, KeyCode.Digit8),
   (10, KeyCode.Digit9), (11, KeyCode.Digit0), (12, KeyCode.Minus),
   (13, KeyCode.Equal), (14, KeyCode.Backspace), (15, KeyCode.Tab),
   (16, KeyCode.KeyQ), (17, KeyCode.KeyW), (18, KeyCode.KeyE),
   (19, KeyCode.KeyR), (20, KeyCode.KeyT), (21, KeyCode.KeyY),
   (22, KeyCode.KeyU), (23, KeyCode.KeyI), (24, KeyCode.KeyO),
   (25, KeyCode.KeyP), (26, KeyCode.BracketLeft), (27, KeyCode.BracketRight),
   (28, KeyCode.Enter), (29, KeyCode.ControlLeft), (30, KeyCode.KeyA),
   (31, KeyCode.KeyS), (32, KeyCode.KeyD), (33, KeyCode.KeyF),
   (34, KeyCode.KeyG), (35, KeyCode.KeyH), (36, KeyCode.KeyJ),
   (37, KeyCode.KeyK), (38, KeyCode.KeyL), (39, KeyCode.Semicolon),
   (41, KeyCode.Backquote), (42, KeyCode.ShiftLeft), (43, KeyCode.Backslash),
   (44, KeyCode.KeyZ), (45, KeyCode.KeyX), (46, KeyCode.KeyC),
   (47, KeyCode.KeyV), (48, KeyCode.KeyB), (49, KeyCode.KeyN),
   (50, KeyCode.KeyM), (51, KeyCode.Comma), (52, KeyCode.Period),
   (53, KeyCode.Slash), (54, KeyCode.ShiftRight), (56, KeyCode.AltLeft),
   (57, KeyCode.Space), (58, KeyCode.CapsLock), (59, KeyCode.F1),
   (60, KeyCode.F2), (61, KeyCode.F3), (62, KeyCode.F4),
   (63, KeyCode.F5), (64, KeyCode.F6), (65, KeyCode.F7),
   (66, KeyCode.F8), (67, KeyCode.F9), (68, KeyCode.F10),
   (70, KeyCode.ScrollLock), (87, KeyCode.F11), (88, KeyCode.F12),
   (97, KeyCode.ControlRight), (99, KeyCode.PrintScreen),
   (100, KeyCode.AltRight), (102, KeyCode.Home), (103, KeyCode.ArrowUp),
   (104, KeyCode.PageUp), (105, KeyCode.ArrowLeft), (106, KeyCode.ArrowRight),
   (107, KeyCode.End), (108, KeyCode.ArrowDown), (109, KeyCode.PageDown),
   (110, KeyCode.Insert), (111, KeyCode.Delete),
   (113, KeyCode.AudioVolumeMute), (114, KeyCode.AudioVolumeDown),
   (115, KeyCode.AudioVolumeUp), (119, KeyCode.Pause),
   (125, KeyCode.SuperLeft), (127, KeyCode.ContextMenu), (143, KeyCode.Fn),
   (158, KeyCode.BrowserBack), (159, KeyCode.BrowserForward)]

/-- The set of scancodes the forward table covers. -/
def tableCodes : List Nat :=
  scancodeTable.map Prod.fst

/-! ## Backend data model for windows and event-loop targets -/

/-- Modelled from the spec: the X11 backend window object (`platform_impl`,
not under `src/`) exposes a native window id (`raw::c_ulong`), a native
display pointer, a native screen id (`raw::c_int`), a shared X connection
reference, and an xcb connection pointer (spec section 6). Raw pointers and
the `Arc<XConnection>` identity are represented as numeric identifiers. -/
structure XWindowHandle where
  xlib_window_id : Nat
  xlib_display_ptr : Nat
  xlib_screen : Int
  x_connection : Nat
  xcb_connection_ptr : Nat
  deriving DecidableEq

/-- Modelled from the spec: the Wayland backend window object
(`platform_impl`, not under `src/`) exposes a native `wl_surface` pointer
and a native `wl_display` pointer (spec section 6). -/
structure WaylandWindowHandle where
  surface_ptr : Nat
  display_ptr : Nat
  deriving DecidableEq

/-- `platform_impl::Window`: the closed backend-variant sum with one
constructor per compiled-in backend (X11 and Wayland in this build). -/
inductive LinuxWindow where
  | X (w : XWindowHandle)
  | Wayland (w : WaylandWindowHandle)
  deriving DecidableEq

/-- `crate::window::Window`: wraps the variant-tagged backend window. -/
structure Window where
  window : LinuxWindow
  deriving DecidableEq

/-- `WindowExtUnix::xlib_window` (`src/platform/unix.rs` lines 259-265). -/
def Window.xlib_window (self : Window) : Option Nat :=
  match self.window with
  | LinuxWindow.X w => some w.xlib_window_id
  | _ => none

/-- `WindowExtUnix::xlib_display` (`src/platform/unix.rs` lines 269-275). -/
def Window.xlib_display (self : Window) : Option Nat :=
  match self.window with
  | LinuxWindow.X w => some w.xlib_display_ptr
  | _ => none

/-- `WindowExtUnix::xlib_screen_id` (`src/platform/unix.rs` lines 279-285). -/
def Window.xlib_screen_id (self : Window) : Option Int :=
  match self.window with
  | LinuxWindow.X w => some w.xlib_screen
  | _ => none

/-- `WindowExtUnix::xlib_xconnection` (`src/platform/unix.rs` lines 290-296). -/
def Window.xlib_xconnection (self : Window) : Option Nat :=
  match self.window with
  | LinuxWindow.X w => some w.x_connection
  | _ => none

/-- `WindowExtUnix::xcb_connection` (`src/platform/unix.rs` lines 300-306). -/
def Window.xcb_connection (self : Window) : Option Nat :=
  match self.window with
  | LinuxWindow.X w => some w.xcb_connection_ptr
  | _ => none

/-- `WindowExtUnix::wayland_surface` (`src/platform/unix.rs` lines 310-316). -/
def Window.wayland_surface (self : Window) : Option Nat :=
  match self.window with
  | LinuxWindow.Wayland w => some w.surface_ptr
  | _ => none

/-- `WindowExtUnix::wayland_display` (`src/platform/unix.rs` lines 320-326). -/
def Window.wayland_display (self : Window) : Option Nat :=
  match self.window with
  | LinuxWindow.Wayland w => some w.display_ptr
  | _ => none

/-- `WindowExtUnix::is_ready` (`src/platform/unix.rs` lines 339-341):
deprecated, unconditionally `true`. -/
def Window.is_ready (_self : Window) : Bool :=
  true

/-- Modelled from the spec: the X11 backend event-loop target
(`platform_impl`, not under `src/`) exposes a clonable shared X connection
reference (spec section 6). -/
structure XEventLoopTarget where
  x_connection : Nat
  deriving DecidableEq

/-- Modelled from the spec: the Wayland backend event-loop target
(`platform_impl`, not under `src/`) exposes a native `wl_display`
pointer (spec section 6). -/
structure WaylandEventLoopTarget where
  display_ptr : Nat
  deriving DecidableEq

/-- `platform_impl::EventLoopWindowTarget`: the closed backend-variant sum
for event-loop targets. -/
inductive LinuxEventLoopWindowTarget where
  | X (e : XEventLoopTarget)
  | Wayland (p : WaylandEventLoopTarget)
  deriving DecidableEq

/-- Modelled from the spec: the `platform_impl` method `is_wayland` on the
inner event-loop target (not under `src/`): the active variant is fixed at
construction, and the method reports whether it is the Wayland variant. -/
def LinuxEventLoopWindowTarget.is_wayland : LinuxEventLoopWindowTarget → Bool
  | LinuxEventLoopWindowTarget.Wayland _ => true
  | LinuxEventLoopWindowTarget.X _ => false

/-- `crate::event_loop::EventLoopWindowTarget` (the generic user-event type
parameter is irrelevant to the claims and omitted): wraps the inner target
in its field `p`. -/
structure EventLoopWindowTarget where
  p : LinuxEventLoopWindowTarget
  deriving DecidableEq

/-- `EventLoopWindowTargetExtUnix::is_wayland` (`src/platform/unix.rs`
lines 64-66): `self.p.is_wayland()`. -/
def EventLoopWindowTarget.is_wayland (self : EventLoopWindowTarget) : Bool :=
  self.p.is_wayland

/-- `EventLoopWindowTargetExtUnix::is_x11` (`src/platform/unix.rs`
lines 70-72): `!self.p.is_wayland()`. -/
def EventLoopWindowTarget.is_x11 (self : EventLoopWindowTarget) : Bool :=
  !self.p.is_wayland

/-- `EventLoopWindowTargetExtUnix::xlib_xconnection` (`src/platform/unix.rs`
lines 77-83). -/
def EventLoopWindowTarget.xlib_xconnection (self : EventLoopWindowTarget) : Option Nat :=
  match self.p with
  | LinuxEventLoopWindowTarget.X e => some e.x_connection
  | _ => none

/-- `EventLoopWindowTargetExtUnix::wayland_display` (`src/platform/unix.rs`
lines 87-95). -/
def EventLoopWindowTarget.wayland_display (self : EventLoopWindowTarget) : Option Nat :=
  match self.p with
  | LinuxEventLoopWindowTarget.Wayland p => some p.display_ptr
  | _ => none

/-! ## Window builder options -/

/-- Modelled from the spec: `XVisualInfo` (`platform_impl::x11::ffi`, not
under `src/`) is a fixed-size visual-descriptor record; its contents are
opaque to this module, so it is represented by an identifier. -/
structure XVisualInfo where
  descriptor : Nat
  deriving DecidableEq

/-- Modelled from the spec: `XWindowType` (`platform_impl::x11::util`, not
under `src/`) is a `_NET_WM_WINDOW_TYPE` hint value, opaque here. -/
structure XWindowType where
  hint : Nat
  deriving DecidableEq

/-- Modelled from the spec: `crate::dpi::Size` (not under `src/`) is a size
hint value, opaque to this module. -/
structure Size where
  width : Nat
  height : Nat
  deriving DecidableEq

/-- The platform-specific option record attached to the generic window
builder (`platform_impl`, not under `src/`; fields as enumerated by the
spec's Builder Options data model and as assigned by the setters in
`src/platform/unix.rs` lines 379-445). `class` and the WM_CLASS pair
components are Rust identifiers that are Lean keywords, so the field is
named `class_` and the pair components are bound as `inst`/`cls`. -/
structure PlatformSpecificWindowBuilderAttributes where
  visual_infos : Option XVisualInfo
  screen_id : Option Int
  class_ : Option (String × String)
  override_redirect : Bool
  x11_window_types : List XWindowType
  gtk_theme_variant : Option String
  resize_increments : Option Size
  base_size : Option Size
  app_id : Option String
  deriving DecidableEq

/-- `crate::window::WindowBuilder`: only its `platform_specific` record is
touched by the extension-trait setters. -/
structure WindowBuilder where
  platform_specific : PlatformSpecificWindowBuilderAttributes
  deriving DecidableEq

/-- `WindowBuilderExtUnix::with_x11_visual` (`src/platform/unix.rs` lines
382-388): the Rust code reads the visual descriptor from a caller-supplied
raw pointer (`ptr::read`); the embedding takes the pointee value directly
and stores it. -/
def with_x11_visual (self : WindowBuilder) (visual_infos : XVisualInfo) : WindowBuilder :=
  { self with platform_specific :=
      { self.platform_specific with visual_infos := some visual_infos } }

/-- `WindowBuilderExtUnix::with_x11_screen` (`src/platform/unix.rs` lines
392-395). -/
def with_x11_screen (self : WindowBuilder) (screen_id : Int) : WindowBuilder :=
  { self with platform_specific :=
      { self.platform_specific with screen_id := some screen_id } }

/-- `WindowBuilderExtUnix::with_class` (`src/platform/unix.rs` lines
399-402): the implementation binds its first parameter as the WM_CLASS
instance and the second as the class, storing the pair in that order. -/
def with_class (self : WindowBuilder) (inst : String) (cls : String) : WindowBuilder :=
  { self with platform_specific :=
      { self.platform_specific with class_ := some (inst, cls) } }

/-- `WindowBuilderExtUnix::with_override_redirect` (`src/platform/unix.rs`
lines 406-409). -/
def with_override_redirect (self : WindowBuilder) (override_redirect : Bool) : WindowBuilder :=
  { self with platform_specific :=
      { self.platform_specific with override_redirect := override_redirect } }

/-- `WindowBuilderExtUnix::with_x11_window_type` (`src/platform/unix.rs`
lines 413-416). -/
def with_x11_window_type (self : WindowBuilder) (x11_window_types : List XWindowType) :
    WindowBuilder :=
  { self with platform_specific :=
      { self.platform_specific with x11_window_types := x11_window_types } }

/-- `WindowBuilderExtUnix::with_gtk_theme_variant` (`src/platform/unix.rs`
lines 420-423). -/
def with_gtk_theme_variant (self : WindowBuilder) (variant : String) : WindowBuilder :=
  { self with platform_specific :=
      { self.platform_specific with gtk_theme_variant := some variant } }

/-- `WindowBuilderExtUnix::with_resize_increments` (`src/platform/unix.rs`
lines 427-430): the generic `Into<Size>` conversion is applied at the call
boundary, so the embedding takes the converted `Size`. -/
def with_resize_increments (self : WindowBuilder) (increments : Size) : WindowBuilder :=
  { self with platform_specific :=
      { self.platform_specific with resize_increments := some increments } }

/-- `WindowBuilderExtUnix::with_base_size` (`src/platform/unix.rs` lines
434-437): the generic `Into<Size>` conversion is applied at the call
boundary, so the embedding takes the converted `Size`. -/
def with_base_size (self : WindowBuilder) (base_size : Size) : WindowBuilder :=
  { self with platform_specific :=
      { self.platform_specific with base_size := some base_size } }

/-- `WindowBuilderExtUnix::with_app_id` (`src/platform/unix.rs` lines
441-444). -/
def with_app_id (self : WindowBuilder) (app_id : String) : WindowBuilder :=
  { self with platform_specific :=
      { self.platform_specific with app_id := some app_id } }

/-- The field of the platform-specific record a builder setter writes. -/
inductive BuilderField where
  | visualInfos
  | screenId
  | classField
  | overrideRedirect
  | windowTypes
  | gtkThemeVariant
  | resizeIncrements
  | baseSize
  | appId
  deriving DecidableEq

/-- One invocation of a builder option setter together with its argument,
covering every setter of `WindowBuilderExtUnix`. -/
inductive BuilderSetter where
  | setX11Visual (v : XVisualInfo)
  | setX11Screen (id : Int)
  | setClass (inst cls : String)
  | setOverrideRedirect (b : Bool)
  | setX11WindowType (ts : List XWindowType)
  | setGtkThemeVariant (v : String)
  | setResizeIncrements (s : Size)
  | setBaseSize (s : Size)
  | setAppId (a : String)
  deriving DecidableEq

/-- Apply a builder setter invocation to a builder. -/
def BuilderSetter.apply : BuilderSetter → WindowBuilder → WindowBuilder
  | BuilderSetter.setX11Visual v, b => with_x11_visual b v
  | BuilderSetter.setX11Screen id, b => with_x11_screen b id
  | BuilderSetter.setClass inst cls, b => with_class b inst cls
  | BuilderSetter.setOverrideRedirect fl, b => with_override_redirect b fl
  | BuilderSetter.setX11WindowType ts, b => with_x11_window_type b ts
  | BuilderSetter.setGtkThemeVariant v, b => with_gtk_theme_variant b v
  | BuilderSetter.setResizeIncrements s, b => with_resize_increments b s
  | BuilderSetter.setBaseSize s, b => with_base_size b s
  | BuilderSetter.setAppId a, b => with_app_id b a

/-- The field a builder setter invocation writes. -/
def BuilderSetter.field : BuilderSetter → BuilderField
  | BuilderSetter.setX11Visual _ => BuilderField.visualInfos
  | BuilderSetter.setX11Screen _ => BuilderField.screenId
  | BuilderSetter.setClass _ _ => BuilderField.classField
  | BuilderSetter.setOverrideRedirect _ => BuilderField.overrideRedirect
  | BuilderSetter.setX11WindowType _ => BuilderField.windowTypes
  | BuilderSetter.setGtkThemeVariant _ => BuilderField.gtkThemeVariant
  | BuilderSetter.setResizeIncrements _ => BuilderField.resizeIncrements
  | BuilderSetter.setBaseSize _ => BuilderField.baseSize
  | BuilderSetter.setAppId _ => BuilderField.appId

/-! ## Event-loop constructors -/

/-- `platform_impl::EventLoop` (not under `src/`): opaque to this module. -/
structure LinuxEventLoop where
  handle : Nat
  deriving DecidableEq

/-- `crate::event_loop::EventLoop` (`src/platform/unix.rs` lines 149-154
construct it from the inner loop; the phantom marker carries no data). -/
structure EventLoop where
  event_loop : LinuxEventLoop
  deriving DecidableEq

/-- `wrap_ev` (`src/platform/unix.rs` lines 149-154). -/
def wrap_ev (event_loop : LinuxEventLoop) : EventLoop :=
  { event_loop := event_loop }

/-- Modelled from the spec: `XNotSupported` (`platform_impl`, not under
`src/`) is the typed failure for an unreachable X server. -/
structure XNotSupported where
  details : String
  deriving DecidableEq

/-- Modelled from the spec: the error of the inner Wayland constructors
(`platform_impl`, not under `src/`), produced when the Wayland connection
cannot be opened. -/
structure ConnectError where
  details : String
  deriving DecidableEq

/-- Result of a Rust computation that either produces a value or aborts the
process with a panic message. -/
inductive Outcome (α : Type) where
  | ok (value : α)
  | fatal (msg : String)
  deriving DecidableEq

/-- Map over the non-fatal result, as Rust code running after a potential
panic does. -/
def Outcome.map {α β : Type} (f : α → β) : Outcome α → Outcome β
  | Outcome.ok a => Outcome.ok (f a)
  | Outcome.fatal m => Outcome.fatal m

/-- Rust `Result::expect(msg)`: unwrap the success value, abort with `msg`
on failure. -/
def expect {ε α : Type} (r : Except ε α) (msg : String) : Outcome α :=
  match r with
  | Except.ok a => Outcome.ok a
  | Except.error _ => Outcome.fatal msg

/-- Modelled from the spec: the inner `platform_impl` event-loop
constructors are not under `src/`; their outcomes depend on the process
environment (display reachability, current thread), which this record
abstracts. Each field is the result the corresponding inner constructor
returns in that environment. -/
structure PlatformEnv where
  wayland_new : Except ConnectError LinuxEventLoop
  wayland_new_any_thread : Except ConnectError LinuxEventLoop
  x11_new : Except XNotSupported LinuxEventLoop
  x11_new_any_thread : Except XNotSupported LinuxEventLoop

/-- `EventLoopExtUnix::new_wayland` (`src/platform/unix.rs` lines 186-192):
`wrap_ev(inner.expect("failed to open Wayland connection"))`. -/
def new_wayland (env : PlatformEnv) : Outcome EventLoop :=
  (expect env.wayland_new "failed to open Wayland connection").map wrap_ev

/-- `EventLoopExtUnix::new_wayland_any_thread` (`src/platform/unix.rs`
lines 170-176). -/
def new_wayland_any_thread (env : PlatformEnv) : Outcome EventLoop :=
  (expect env.wayland_new_any_thread "failed to open Wayland connection").map wrap_ev

/-- `EventLoopExtUnix::new_x11` (`src/platform/unix.rs` lines 180-182):
`inner.map(wrap_ev)`, propagating `XNotSupported`. -/
def new_x11 (env : PlatformEnv) : Except XNotSupported EventLoop :=
  env.x11_new.map wrap_ev

/-- `EventLoopExtUnix::new_x11_any_thread` (`src/platform/unix.rs` lines
164-166). -/
def new_x11_any_thread (env : PlatformEnv) : Except XNotSupported EventLoop :=
  env.x11_new_any_thread.map wrap_ev

/-! ## Wayland decoration theme -/

/-- `Element` (`src/platform/unix.rs` lines 513-524). -/
inductive Element where
  | Bar
  | Separator
  | Text
  deriving DecidableEq

/-- `Button` (`src/platform/unix.rs` lines 488-499). -/
inductive Button where
  | Maximize
  | Minimize
  | Close
  deriving DecidableEq

/-- `ButtonState` (`src/platform/unix.rs` lines 502-511). -/
inductive ButtonState where
  | Hovered
  | Idle
  | Disabled
  deriving DecidableEq

/-- `ARGBColor` (`src/platform/unix.rs` lines 526-533); the `u8` channels
are represented as `Nat`. -/
structure ARGBColor where
  a : Nat
  r : Nat
  g : Nat
  b : Nat
  deriving DecidableEq

/-- The `Theme` trait (`src/platform/unix.rs` lines 460-485), embedded as a
record of its methods; `font` carries the trait's default body
`Some(("sans-serif", 17.))` as the field default, which an implementing
type keeps unless it overrides the method. -/
structure Theme where
  element_color : Element → Bool → ARGBColor
  button_color : Button → ButtonState → Bool → Bool → ARGBColor
  font : Option (String × Float) := some ("sans-serif", 17.0)

/-- Modelled from the spec: the Wayland decoration renderer (an external
collaborator, not under `src/`) draws the title exactly when `font`
returns a value; returning none suppresses title rendering. -/
def drawsTitle (t : Theme) : Bool :=
  t.font.isSome

/-- A concrete builder with every platform-specific option unset, used to
instantiate the builder theorems. -/
def sampleBuilder : WindowBuilder :=
  { platform_specific :=
      { visual_infos := none, screen_id := none, class_ := none,
        override_redirect := false, x11_window_types := [],
        gtk_theme_variant := none, resize_increments := none,
        base_size := none, app_id := none } }

/-! ## Theorems -/

/-- C1: `from_scancode` is total over 32-bit scancodes: each code in the
fixed forward table maps to its documented named key (in particular 1 to
Escape and 57 to Space), and every code outside the table — gap codes 40
and 55 and out-of-range 9999 included — maps to
`Unidentified(XKB(code))` carrying exactly the original code. -/
theorem from_scancode_spec :
    (∀ p ∈ scancodeTable, from_scancode p.1 = p.2) ∧
    from_scancode 1 = KeyCode.Escape ∧
    from_scancode 57 = KeyCode.Space ∧
    from_scancode 40 = KeyCode.Unidentified (NativeKeyCode.XKB 40) ∧
    from_scancode 55 = KeyCode.Unidentified (NativeKeyCode.XKB 55) ∧
    from_scancode 9999 = KeyCode.Unidentified (NativeKeyCode.XKB 9999) ∧
    ∀ code : Nat, code < 2 ^ 32 → code ∉ tableCodes →
      from_scancode code = KeyCode.Unidentified (NativeKeyCode.XKB code) := by
  refine ⟨?_, rfl, rfl, rfl, rfl, rfl, ?_⟩
  · intro p hp
    fin_cases hp <;> rfl
  · intro code _ h
    simp only [tableCodes, scancodeTable, List.map_cons, List.map_nil, List.mem_cons,
      List.not_mem_nil, or_false, not_or] at h
    simp only [from_scancode, if_neg]
    simp_all

/-- Witness for C1 at concrete scancodes 1, 57 and 9999. -/
theorem from_scancode_spec_witness :
    from_scancode (1, KeyCode.Escape).1 = (1, KeyCode.Escape).2 ∧
    from_scancode 57 = KeyCode.Space ∧
    from_scancode 9999 = KeyCode.Unidentified (NativeKeyCode.XKB 9999) :=
  ⟨from_scancode_spec.1 (1, KeyCode.Escape) (List.mem_cons_self _ _),
   from_scancode_spec.2.2.1,
   from_scancode_spec.2.2.2.2.2.2 9999 (by norm_num) (by decide)⟩

/-- C2: each backend-specific native-handle accessor on `Window` returns
the backend's native value when the active variant matches the accessor's
backend, and `none` when the active variant is the other compiled-in
backend; every accessor is a total function. -/
theorem window_accessor_spec :
    (∀ (self : Window) (w : XWindowHandle), self.window = LinuxWindow.X w →
      self.xlib_window = some w.xlib_window_id ∧
      self.xlib_display = some w.xlib_display_ptr ∧
      self.xlib_screen_id = some w.xlib_screen ∧
      self.xcb_connection = some w.xcb_connection_ptr ∧
      self.wayland_surface = none ∧
      self.wayland_display = none) ∧
    (∀ (self : Window) (w : WaylandWindowHandle), self.window = LinuxWindow.Wayland w →
      self.wayland_surface = some w.surface_ptr ∧
      self.wayland_display = some w.display_ptr ∧
      self.xlib_window = none ∧
      self.xlib_display = none ∧
      self.xlib_screen_id = none ∧
      self.xcb_connection = none) := by
  constructor <;> intro self w h <;>
    simp [Window.xlib_window, Window.xlib_display, Window.xlib_screen_id,
      Window.xcb_connection, Window.wayland_surface, Window.wayland_display, h]

/-- Witness for C2 on a concrete X11 window and a concrete Wayland
window. -/
theorem window_accessor_spec_witness :
    (Window.mk (LinuxWindow.X ⟨1, 2, 3, 4, 5⟩)).xlib_window = some 1 ∧
    (Window.mk (LinuxWindow.Wayland ⟨6, 7⟩)).wayland_surface = some 6 :=
  ⟨(window_accessor_spec.1 _ ⟨1, 2, 3, 4, 5⟩ rfl).1,
   (window_accessor_spec.2 _ ⟨6, 7⟩ rfl).1⟩

/-- C3: on any `Window` or `EventLoopWindowTarget`, at most one backend's
accessors return a present value: whenever any accessor of one backend is
present, every accessor of the other backend is absent. -/
theorem backend_exclusivity_spec :
    (∀ self : Window,
      ((self.xlib_window.isSome = true ∨ self.xlib_display.isSome = true ∨
        self.xlib_screen_id.isSome = true ∨ self.xlib_xconnection.isSome = true ∨
        self.xcb_connection.isSome = true) →
        self.wayland_surface = none ∧ self.wayland_display = none) ∧
      ((self.wayland_surface.isSome = true ∨ self.wayland_display.isSome = true) →
        self.xlib_window = none ∧ self.xlib_display = none ∧
        self.xlib_screen_id = none ∧ self.xlib_xconnection = none ∧
        self.xcb_connection = none)) ∧
    (∀ t : EventLoopWindowTarget,
      (t.xlib_xconnection.isSome = true → t.wayland_display = none) ∧
      (t.wayland_display.isSome = true → t.xlib_xconnection = none)) := by
  constructor
  · intro self
    obtain ⟨w⟩ := self
    cases w <;>
      simp [Window.xlib_window, Window.xlib_display, Window.xlib_screen_id,
        Window.xlib_xconnection, Window.xcb_connection, Window.wayland_surface,
        Window.wayland_display]
  · intro t
    obtain ⟨p⟩ := t
    cases p <;>
      simp [EventLoopWindowTarget.xlib_xconnection, EventLoopWindowTarget.wayland_display]

/-- Witness for C3 on a concrete X11 window and a concrete Wayland
event-loop target. -/
theorem backend_exclusivity_spec_witness :
    (Window.mk (LinuxWindow.X ⟨1, 2, 3, 4, 5⟩)).wayland_surface = none ∧
    (EventLoopWindowTarget.mk (LinuxEventLoopWindowTarget.Wayland ⟨9⟩)).xlib_xconnection
      = none :=
  ⟨((backend_exclusivity_spec.1 (Window.mk (LinuxWindow.X ⟨1, 2, 3, 4, 5⟩))).1
      (Or.inl rfl)).1,
   (backend_exclusivity_spec.2
      (EventLoopWindowTarget.mk (LinuxEventLoopWindowTarget.Wayland ⟨9⟩))).2 rfl⟩

/-- C4: `with_class` stores its two arguments in (instance, class) order:
its first argument becomes the WM_CLASS instance component and its second
the class component of the builder's window-class field. -/
theorem with_class_spec :
    ∀ (b : WindowBuilder) (inst cls : String),
      (with_class b inst cls).platform_specific.class_ = some (inst, cls) :=
  fun _ _ _ => rfl

/-- C5: `to_scancode` returns `none` for every `KeyCode`: the reverse
mapping is entirely unimplemented in this configuration. -/
theorem to_scancode_spec :
    ∀ k : KeyCode, to_scancode k = none :=
  fun _ => rfl

/-- C6: every builder option setter is last-write-wins (repeating a setter
is idempotent and the later of two writes to the same field wins — in
particular override-redirect true then false ends false), and setters of
distinct fields commute. -/
theorem builder_setter_spec :
    (∀ (s : BuilderSetter) (b : WindowBuilder), s.apply (s.apply b) = s.apply b) ∧
    (∀ (s t : BuilderSetter) (b : WindowBuilder), s.field = t.field →
      t.apply (s.apply b) = t.apply b) ∧
    (∀ (s t : BuilderSetter) (b : WindowBuilder), s.field ≠ t.field →
      t.apply (s.apply b) = s.apply (t.apply b)) ∧
    (∀ b : WindowBuilder,
      (with_override_redirect (with_override_redirect b true)
        false).platform_specific.override_redirect = false) := by
  refine ⟨?_, ?_, ?_, ?_⟩
  · intro s b
    obtain ⟨⟨v, sc, cl, ov, wt, gtk, ri, bs, ap⟩⟩ := b
    cases s <;> rfl
  · intro s t b h
    obtain ⟨⟨v, sc, cl, ov, wt, gtk, ri, bs, ap⟩⟩ := b
    cases s <;> cases t <;>
      simp_all [BuilderSetter.field, BuilderSetter.apply, with_x11_visual,
        with_x11_screen, with_class, with_override_redirect, with_x11_window_type,
        with_gtk_theme_variant, with_resize_increments, with_base_size, with_app_id]
  · intro s t b h
    obtain ⟨⟨v, sc, cl, ov, wt, gtk, ri, bs, ap⟩⟩ := b
    cases s <;> cases t <;>
      simp_all [BuilderSetter.field, BuilderSetter.apply, with_x11_visual,
        with_x11_screen, with_class, with_override_redirect, with_x11_window_type,
        with_gtk_theme_variant, with_resize_increments, with_base_size, with_app_id]
  · intro b
    rfl

/-- Witness for C6: last-write-wins on the override-redirect field and
commutation of the screen-id and app-id setters, on a concrete builder. -/
theorem builder_setter_spec_witness :
    BuilderSetter.apply (BuilderSetter.setOverrideRedirect false)
        (BuilderSetter.apply (BuilderSetter.setOverrideRedirect true) sampleBuilder)
      = BuilderSetter.apply (BuilderSetter.setOverrideRedirect false) sampleBuilder ∧
    BuilderSetter.apply (BuilderSetter.setAppId "app")
        (BuilderSetter.apply (BuilderSetter.setX11Screen 0) sampleBuilder)
      = BuilderSetter.apply (BuilderSetter.setX11Screen 0)
        (BuilderSetter.apply (BuilderSetter.setAppId "app") sampleBuilder) :=
  ⟨builder_setter_spec.2.1 _ _ sampleBuilder rfl,
   builder_setter_spec.2.2.1 _ _ sampleBuilder (by decide)⟩

/-- C7: when the inner Wayland constructor fails, `new_wayland` and
`new_wayland_any_thread` abort with the message "failed to open Wayland
connection"; when the inner X11 constructor fails, `new_x11` and
`new_x11_any_thread` return the typed `XNotSupported` error instead. -/
theorem constructor_failure_spec :
    (∀ (env : PlatformEnv) (e : ConnectError), env.wayland_new = Except.error e →
      new_wayland env = Outcome.fatal "failed to open Wayland connection") ∧
    (∀ (env : PlatformEnv) (e : ConnectError),
      env.wayland_new_any_thread = Except.error e →
      new_wayland_any_thread env = Outcome.fatal "failed to open Wayland connection") ∧
    (∀ (env : PlatformEnv) (e : XNotSupported), env.x11_new = Except.error e →
      new_x11 env = Except.error e) ∧
    (∀ (env : PlatformEnv) (e : XNotSupported), env.x11_new_any_thread = Except.error e →
      new_x11_any_thread env = Except.error e) := by
  refine ⟨?_, ?_, ?_, ?_⟩ <;> intro env e h <;>
    simp [new_wayland, new_wayland_any_thread, new_x11, new_x11_any_thread,
      expect, Outcome.map, Except.map, h]

/-- Witness for C7 in a concrete environment where both display servers
are unreachable. -/
theorem constructor_failure_spec_witness :
    new_wayland ⟨Except.error ⟨"no compositor"⟩, Except.error ⟨"no compositor"⟩,
        Except.error ⟨"no X server"⟩, Except.error ⟨"no X server"⟩⟩
      = Outcome.fatal "failed to open Wayland connection" ∧
    new_x11 ⟨Except.error ⟨"no compositor"⟩, Except.error ⟨"no compositor"⟩,
        Except.error ⟨"no X server"⟩, Except.error ⟨"no X server"⟩⟩
      = Except.error ⟨"no X server"⟩ :=
  ⟨constructor_failure_spec.1 _ ⟨"no compositor"⟩ rfl,
   constructor_failure_spec.2.2.1 _ ⟨"no X server"⟩ rfl⟩

/-- C8: a `Theme` implementation that does not override `font` gets the
default `some ("sans-serif", 17.0)`, and a `font` of `none` suppresses
title rendering. -/
theorem theme_font_default_spec :
    (∀ (ec : Element → Bool → ARGBColor)
       (bc : Button → ButtonState → Bool → Bool → ARGBColor),
      ({ element_color := ec, button_color := bc } : Theme).font
        = some ("sans-serif", 17.0)) ∧
    (∀ t : Theme, t.font = none → drawsTitle t = false) := by
  constructor
  · intro ec bc
    rfl
  · intro t h
    simp [drawsTitle, h]

/-- Witness for C8 on a concrete theme keeping the default font and a
concrete theme overriding it with `none`. -/
theorem theme_font_default_spec_witness :
    ({ element_color := (fun _ _ => ⟨0, 0, 0, 0⟩),
       button_color := (fun _ _ _ _ => ⟨0, 0, 0, 0⟩) } : Theme).font
      = some ("sans-serif", 17.0) ∧
    drawsTitle { element_color := (fun _ _ => ⟨0, 0, 0, 0⟩),
                 button_color := (fun _ _ _ _ => ⟨0, 0, 0, 0⟩),
                 font := none } = false :=
  ⟨theme_font_default_spec.1 _ _, theme_font_default_spec.2 _ rfl⟩

/-- C9: the deprecated `is_ready` returns `true` for every window,
regardless of its backend variant. -/
theorem is_ready_spec :
    ∀ self : Window, Window.is_ready self = true :=
  fun _ => rfl

/-- C10: `is_x11` is exactly the negation of `is_wayland` on every
event-loop target: exactly one of the two predicates holds. -/
theorem is_x11_negation_spec :
    ∀ t : EventLoopWindowTarget,
      t.is_x11 = !t.is_wayland ∧ (t.is_x11 = true ↔ t.is_wayland = false) := by
  intro t
  obtain ⟨p⟩ := t
  cases p <;>
    simp [EventLoopWindowTarget.is_x11, EventLoopWindowTarget.is_wayland,
      LinuxEventLoopWindowTarget.is_wayland]

end Winit
